import Mathlib

/-!
Shallow embedding of the client-side job-lifecycle controller and
graph-rendering state machine of the Research Paper Navigator frontend
(frontend/app/components/Sidebar.tsx, GraphCanvas.tsx, page.tsx,
frontend/app/types.ts).  Pure functions of the source are translated as
Lean functions; the React component state (files, papers, lastGeneration,
graph data, selection) is made explicit as record types, and the polling
loops of handleGenerateGraph / handleUpdateGraph are modelled as functions
consuming a finite list of mocked HTTP replies.
-/

namespace ResearchNavigator

/-- A staged browser file handle: only its name and (opaque) content matter
to the frontend logic (de-duplication and upload are by name / by value). -/
structure FileH where
  name : String
  content : String
deriving DecidableEq

/-- An entry of the `papers` state in Sidebar.tsx: `{id, name}`. -/
structure Paper where
  id : String
  name : String
deriving DecidableEq

/-- `GraphNodeMetadata` from frontend/app/types.ts. -/
structure GraphNodeMetadata where
  methodology : String
  key_result : String
  core_theory : String
deriving DecidableEq

/-- `GraphNodeData` from frontend/app/types.ts. -/
structure GraphNodeData where
  label : String
  metadata : GraphNodeMetadata
  file_path : String
deriving DecidableEq

/-- `BackendNode` from frontend/app/types.ts: a node of a result payload. -/
structure BackendNode where
  id : String
  data : GraphNodeData
deriving DecidableEq

/-- `GraphEdgeData` from frontend/app/types.ts (all fields present on a
backend result edge).  The confidence score is a decimal JSON number,
modelled as a rational. -/
structure GraphEdgeData where
  relation_type : String
  confidence : Rat
  explanation : String
deriving DecidableEq

/-- `BackendEdge` from frontend/app/types.ts: an edge of a result payload. -/
structure BackendEdge where
  id : String
  source : String
  target : String
  data : GraphEdgeData
deriving DecidableEq

/-- `GraphResult` from frontend/app/types.ts. -/
structure GraphResult where
  nodes : List BackendNode
  edges : List BackendEdge
deriving DecidableEq

/-- `ProcessBatchResponse` from frontend/app/types.ts, plus the `error`
field that Sidebar.tsx reads from the decoded JSON (`statusData.error`;
the backend status endpoint includes it on failure). -/
structure ProcessBatchResponse where
  status : String
  progress : Int
  current_file : String
  total_files : Int
  created_at : String
  result : Option GraphResult
  error : Option String
deriving DecidableEq

/-- The `data` record of a ReactFlow edge as the styling effect sees it:
every field may be absent (`edge.data?.relation_type`). -/
structure REdgeData where
  relation_type : Option String
  confidence : Option Rat
  explanation : Option String
deriving DecidableEq

/-- The inline `style` object assigned by the styling effect. -/
structure EdgeStyle where
  stroke : String
  strokeWidth : Nat
  strokeDasharray : String
deriving DecidableEq

/-- The `markerEnd` object assigned by the styling effect. -/
structure EdgeMarker where
  markerType : String
  color : String
deriving DecidableEq

/-- A ReactFlow `Edge` as used by GraphCanvas.tsx: `source`/`target` are
required, the visual fields are optional until the styling effect sets
them.  (The TypeScript field `type` is rendered here as `edgeType`.) -/
structure REdge where
  id : String
  source : String
  target : String
  edgeType : Option String
  animated : Option Bool
  style : Option EdgeStyle
  markerEnd : Option EdgeMarker
  label : Option String
  data : Option REdgeData
deriving DecidableEq

/-- A positioned ReactFlow node as built by the handlers in Sidebar.tsx:
a backend node spread together with a grid `position`. -/
structure PNode where
  id : String
  data : GraphNodeData
  position : Nat × Nat
deriving DecidableEq

/-- `RELATION_COLORS` from GraphCanvas.tsx, as a partial lookup
(`none` models a missing record key, i.e. JS `undefined`). -/
def RELATION_COLORS (k : String) : Option String :=
  if k = "Supports" then some "#22c55e"
  else if k = "Contradicts" then some "#ef4444"
  else if k = "Extends" then some "#3b82f6"
  else if k = "Default" then some "#94a3b8"
  else none

/-- `edge.data?.relation_type || 'Default'`: absent data, absent field and
the empty string (JS falsy) all collapse to `"Default"`. -/
def relationTypeOf : Option REdgeData → String
  | none => "Default"
  | some d =>
    match d.relation_type with
    | none => "Default"
    | some s => if s = "" then "Default" else s

/-- `RELATION_COLORS[relationType] || RELATION_COLORS.Default`:
an unknown kind falls back to the neutral default color. -/
def colorOf (k : String) : String :=
  (RELATION_COLORS k).getD "#94a3b8"

/-- The JS object spread `{ ...edge.data }`: spreading an absent object
yields an empty object (all fields absent). -/
def spreadData : Option REdgeData → REdgeData
  | none => { relation_type := none, confidence := none, explanation := none }
  | some d => d

/-- The per-edge styling performed by the effect in GraphCanvas.tsx
(lines 54-79): fixed palette color by relation kind, `animated` exactly
for `Extends`, label suppressed for the `Default` kind, closed-arrow
marker, and data preserved by spread. -/
def styleEdge (e : REdge) : REdge :=
  let rt := relationTypeOf e.data
  let color := colorOf rt
  { e with
    edgeType := some "custom"
    animated := some (decide (rt = "Extends"))
    style := some { stroke := color, strokeWidth := 2, strokeDasharray := "0" }
    markerEnd := some { markerType := "arrowclosed", color := color }
    label := some (if rt ≠ "Default" then rt else "")
    data := some (spreadData e.data) }

/-- `initialEdges.map((edge) => ...)` of the styling effect. -/
def styleEdges (es : List REdge) : List REdge :=
  es.map styleEdge

/-- A raw result-payload edge viewed as the ReactFlow edge handed to
GraphCanvas (all visual fields still unset, data fields all present). -/
def backendEdgeToREdge (e : BackendEdge) : REdge :=
  { id := e.id
    source := e.source
    target := e.target
    edgeType := none
    animated := none
    style := none
    markerEnd := none
    label := none
    data := some { relation_type := some e.data.relation_type
                   confidence := some e.data.confidence
                   explanation := some e.data.explanation } }

/-- The styled rendering of one result-payload edge. -/
def styledOf (e : BackendEdge) : REdge :=
  styleEdge (backendEdgeToREdge e)

/-- The stroke color of an edge, when a style has been assigned. -/
def strokeOf (e : REdge) : Option String :=
  e.style.map EdgeStyle.stroke

/-- Worker for the indexed map
`nodes.map((node, index) => ({...node, position: ...}))` of Sidebar.tsx. -/
def nodesWithPosAux : Nat → List BackendNode → List PNode
  | _, [] => []
  | i, n :: rest =>
    { id := n.id, data := n.data
      position := (100 * (i % 5), 100 * (i / 5)) } :: nodesWithPosAux (i + 1) rest

/-- The deterministic grid layout applied to result nodes, identical in
handleGenerateGraph and handleUpdateGraph: node `i` gets position
`(100 * (i % 5), 100 * (i / 5))`. -/
def nodesWithPos (ns : List BackendNode) : List PNode :=
  nodesWithPosAux 0 ns

/-- One reply of the mocked `GET /batch-status/...` endpoint: either a
non-success HTTP status (`!statusResponse.ok`) or a decoded body. -/
inductive PollReply where
  | httpError : PollReply
  | ok : ProcessBatchResponse → PollReply
deriving DecidableEq

/-- The terminal outcome of one polling loop over a finite reply list. -/
inductive LoopOutcome where
  | success : GraphResult → LoopOutcome
  | failed : String → LoopOutcome
  | thrown : String → LoopOutcome
  | exhausted : LoopOutcome
deriving DecidableEq

/-- JS `a || b` on an optional string: an absent or empty string falls
back to the right operand. -/
def jsOr : Option String → String → String
  | none, b => b
  | some s, b => if s = "" then b else s

/-- The `while (processing)` polling loop shared (up to messages) by
handleUpdateGraph and handleGenerateGraph in Sidebar.tsx: a non-ok status
response throws; `status === 'completed' && result` succeeds;
`status === 'failed'` fails with `statusData.error || fallback`;
every other response (including `completed` with a null result) waits and
polls again.  `exhausted` means the modelled reply list ran out with the
loop still going. -/
def pollLoop (fallback : String) : List PollReply → LoopOutcome
  | [] => LoopOutcome.exhausted
  | PollReply.httpError :: _ => LoopOutcome.thrown "Failed to check job status"
  | PollReply.ok r :: rest =>
    if r.status = "completed" ∧ r.result.isSome = true then
      LoopOutcome.success (r.result.getD { nodes := [], edges := [] })
    else if r.status = "failed" then
      LoopOutcome.failed (jsOr r.error fallback)
    else
      pollLoop fallback rest

/-- The `lastGeneration` state of Sidebar.tsx: `{ user, files }`. -/
structure LastGen where
  user : String
  files : List FileH
deriving DecidableEq

/-- The mutable frontend state the handlers read and write: the Sidebar
state (`user`, `lastGeneration`, `files`, `papers`) together with the
page-level `graphData` that `onGraphUpdate` replaces. -/
structure AppState where
  user : String
  lastGeneration : Option LastGen
  files : List FileH
  papers : List Paper
  graph : List PNode × List BackendEdge
deriving DecidableEq

/-- One reply of a mocked submission endpoint (`POST /process-batch` or
`POST /graph`): a non-success HTTP status code, or a body with a job id. -/
inductive SubmitReply where
  | httpError : Nat → SubmitReply
  | ok : String → SubmitReply
deriving DecidableEq

/-- How one handler invocation ended: rendered a result (`done`),
surfaced an error message (`error`), is still waiting on further status
replies (`pending`), or returned early on its guard (`noop`). -/
inductive RunOutcome where
  | done : RunOutcome
  | error : String → RunOutcome
  | pending : RunOutcome
  | noop : RunOutcome
deriving DecidableEq

/-- The completed-with-result branch, identical in both handlers:
`setPapers(result.nodes.map(n => ({id, name: label})))`,
`setLastGeneration({user, files})`, and
`onGraphUpdate({nodes: nodesWithPos, edges: result.edges})`. -/
def applyResult (s : AppState) (r : GraphResult) : AppState :=
  { s with
    papers := r.nodes.map fun n => { id := n.id, name := n.data.label }
    lastGeneration := some { user := s.user, files := s.files }
    graph := (nodesWithPos r.nodes, r.edges) }

/-- `handleGenerateGraph` from Sidebar.tsx as a state transformer over a
mocked submission reply and status-reply list: early return on an empty
file list; a non-ok submission response throws
`Failed to start processing (code)`; then the 5s polling loop with
fallback message `Processing failed with unknown error`. -/
def runGenerate (s : AppState) (sub : SubmitReply) (polls : List PollReply) :
    AppState × RunOutcome :=
  if s.files.length = 0 then (s, RunOutcome.noop)
  else
    match sub with
    | SubmitReply.httpError code =>
      (s, RunOutcome.error ("Failed to start processing (" ++ toString code ++ ")"))
    | SubmitReply.ok _ =>
      match pollLoop "Processing failed with unknown error" polls with
      | LoopOutcome.success r => (applyResult s r, RunOutcome.done)
      | LoopOutcome.failed msg => (s, RunOutcome.error msg)
      | LoopOutcome.thrown msg => (s, RunOutcome.error msg)
      | LoopOutcome.exhausted => (s, RunOutcome.pending)

/-- `handleUpdateGraph` from Sidebar.tsx as a state transformer: early
return when `papers.length === 0 || loading`; a non-ok submission response
throws `Failed to start graph update (code)`; then the 2s polling loop
with fallback message `Graph update failed with unknown error`. -/
def runUpdate (s : AppState) (loading : Bool) (sub : SubmitReply)
    (polls : List PollReply) : AppState × RunOutcome :=
  if s.papers.length = 0 ∨ loading = true then (s, RunOutcome.noop)
  else
    match sub with
    | SubmitReply.httpError code =>
      (s, RunOutcome.error ("Failed to start graph update (" ++ toString code ++ ")"))
    | SubmitReply.ok _ =>
      match pollLoop "Graph update failed with unknown error" polls with
      | LoopOutcome.success r => (applyResult s r, RunOutcome.done)
      | LoopOutcome.failed msg => (s, RunOutcome.error msg)
      | LoopOutcome.thrown msg => (s, RunOutcome.error msg)
      | LoopOutcome.exhausted => (s, RunOutcome.pending)

/-- `handleSelectFiles` from Sidebar.tsx: keep the previously staged files
and append only those new files whose name is not already staged. -/
def handleSelectFiles (newFiles prevFiles : List FileH) : List FileH :=
  prevFiles ++ newFiles.filter fun f => decide (f.name ∉ prevFiles.map FileH.name)

/-- A sequence of file-selection change events applied to an initially
empty staged list. -/
def applyFileEvents (events : List (List FileH)) : List FileH :=
  events.foldl (fun staged ev => handleSelectFiles ev staged) []

/-- `hasDifferentFilesThanLastGeneration` from Sidebar.tsx: `false` with
no prior generation; `true` on a length mismatch; otherwise `true` iff
some staged file name is not among the last generation's file names. -/
def hasDifferentFilesThanLastGeneration (files : List FileH) :
    Option LastGen → Bool
  | none => false
  | some lg =>
    if files.length ≠ lg.files.length then true
    else files.any fun f => decide (f.name ∉ lg.files.map FileH.name)

/-- `user === lastGeneration?.user`: the optional chaining makes the
comparison false when there is no last generation. -/
def userMatchesLast (user : String) : Option LastGen → Bool
  | none => false
  | some lg => decide (user = lg.user)

/-- The `disabled` expression of the trigger button in Sidebar.tsx
(line 264), with JS operator precedence made explicit:
`(files.length === 0 && (papers.length === 0 ||
(user === lastGeneration?.user && !hasDifferentFiles...))) || loading`. -/
def buttonDisabled (s : AppState) (loading : Bool) : Bool :=
  (decide (s.files.length = 0) &&
    (decide (s.papers.length = 0) ||
      (userMatchesLast s.user s.lastGeneration &&
        !hasDifferentFilesThanLastGeneration s.files s.lastGeneration))) || loading

/-- The submission request a trigger produces: `processBatch` is the
multipart `POST /process-batch` payload carrying the staged files and the
`user_type` mode; `graphUpdate` is the JSON `POST /graph` payload carrying
the mode and the previously known paper identifiers, and no files. -/
inductive Request where
  | processBatch : List FileH → String → Request
  | graphUpdate : String → List Paper → Request
deriving DecidableEq

/-- The request built by `handleGenerateGraph` (after its
`files.length === 0` early return). -/
def generateRequest (s : AppState) : Option Request :=
  if s.files.length = 0 then none
  else some (Request.processBatch s.files s.user)

/-- The request built by `handleUpdateGraph` (after its
`papers.length === 0 || loading` early return). -/
def updateRequest (s : AppState) (loading : Bool) : Option Request :=
  if s.papers.length = 0 ∨ loading = true then none
  else some (Request.graphUpdate s.user s.papers)

/-- The button `onClick` routing in Sidebar.tsx (lines 265-271):
`files.length > 0` dispatches to handleGenerateGraph, else to
handleUpdateGraph. -/
def onClickRequest (s : AppState) (loading : Bool) : Option Request :=
  if s.files.length > 0 then generateRequest s
  else updateRequest s loading

/-- The TypeScript union `Node | Edge` stored in the `openModal` state of
GraphCanvas.tsx. -/
inductive Item where
  | node : PNode → Item
  | edge : REdge → Item
deriving DecidableEq

/-- `'source' in item`: a ReactFlow node object has no `source` field, an
edge object has one. -/
def hasSourceField : Item → Bool
  | Item.node _ => false
  | Item.edge _ => true

/-- `'target' in item`. -/
def hasTargetField : Item → Bool
  | Item.node _ => false
  | Item.edge _ => true

/-- `'position' in item`: the rendered node objects carry a position, the
edge objects never do. -/
def hasPositionField : Item → Bool
  | Item.node _ => true
  | Item.edge _ => false

/-- `isEdge` from GraphCanvas.tsx:
`item !== null && 'source' in item && 'target' in item`. -/
def isEdgeItem : Option Item → Bool
  | none => false
  | some it => hasSourceField it && hasTargetField it

/-- `isNode` from GraphCanvas.tsx: `item !== null && 'position' in item`. -/
def isNodeItem : Option Item → Bool
  | none => false
  | some it => hasPositionField it

/-- A selection event: `setOpenModal(entity)` from a node or edge click,
or `setOpenModal(null)` from closing a modal. -/
inductive SelEvent where
  | select : Item → SelEvent
  | clear : SelEvent
deriving DecidableEq

/-- One transition of the `openModal` state.  The previous state is
discarded by both events. -/
def selStep (_st : Option Item) : SelEvent → Option Item
  | SelEvent.select it => some it
  | SelEvent.clear => none

/-- The `openModal` state after a sequence of events, starting from the
initial `null`. -/
def selRun (events : List SelEvent) : Option Item :=
  events.foldl selStep none

/-- The render guard `openModal && isEdge(openModal) && openModal` of the
EdgeModal in GraphCanvas.tsx. -/
def edgeModalShown (st : Option Item) : Bool :=
  st.isSome && isEdgeItem st

/-- The render guard `openModal && isNode(openModal)` of the NodeModal. -/
def nodeModalShown (st : Option Item) : Bool :=
  st.isSome && isNodeItem st

/-- A status reply carrying a completed result payload. -/
def completedResp (r : GraphResult) : ProcessBatchResponse :=
  { status := "completed", progress := 100, current_file := "", total_files := 1
    created_at := "t", result := some r, error := none }

/-! Concrete fixtures used by witnesses and counterexamples. -/

/-- Fixture metadata record. -/
def metaW : GraphNodeMetadata :=
  { methodology := "m", key_result := "k", core_theory := "c" }

/-- Fixture node data. -/
def dataW : GraphNodeData :=
  { label := "Paper A", metadata := metaW, file_path := "a.pdf" }

/-- Fixture backend node. -/
def nodeW : BackendNode := { id := "p1", data := dataW }

/-- A seven-node fixture payload, enough to wrap to the grid's second row. -/
def nsW : List BackendNode :=
  [nodeW, nodeW, nodeW, nodeW, nodeW, nodeW, nodeW]

/-- Fixture staged files. -/
def fA : FileH := { name := "A.pdf", content := "contentA" }

/-- Fixture staged files. -/
def fB : FileH := { name := "B.pdf", content := "contentB" }

/-- A second file with the name of `fB` but different content: if adding
it replaced `fB`, the staged list would show it. -/
def fB2 : FileH := { name := "B.pdf", content := "contentB-second" }

/-- Fixture staged files. -/
def fC : FileH := { name := "C.pdf", content := "contentC" }

/-- Two distinct files sharing one name, offered in a single add event. -/
def fD1 : FileH := { name := "A.pdf", content := "v1" }

/-- Two distinct files sharing one name, offered in a single add event. -/
def fD2 : FileH := { name := "A.pdf", content := "v2" }

/-- Fixture paper entry. -/
def pW : Paper := { id := "p1", name := "Paper A" }

/-- A completed status reply whose result payload is null. -/
def respCompletedNull : ProcessBatchResponse :=
  { status := "completed", progress := 100, current_file := "", total_files := 1
    created_at := "t", result := none, error := none }

/-- A running status reply. -/
def respRunning : ProcessBatchResponse :=
  { status := "running", progress := 10, current_file := "a.pdf", total_files := 1
    created_at := "t", result := none, error := none }

/-- A failed status reply with a server-supplied message. -/
def respFailedBoom : ProcessBatchResponse :=
  { status := "failed", progress := 0, current_file := "", total_files := 0
    created_at := "t", result := none, error := some "boom" }

/-- A failed status reply without an error field. -/
def respFailedNoErr : ProcessBatchResponse :=
  { status := "failed", progress := 0, current_file := "", total_files := 0
    created_at := "t", result := none, error := none }

/-- A failed status reply whose error field is present but empty. -/
def respFailedEmptyErr : ProcessBatchResponse :=
  { status := "failed", progress := 0, current_file := "", total_files := 0
    created_at := "t", result := none, error := some "" }

/-- Fixture backend edge with the Supports relation kind. -/
def eSupB : BackendEdge :=
  { id := "e1", source := "p1", target := "p2"
    data := { relation_type := "Supports", confidence := 17/20, explanation := "x" } }

/-- Fixture last-generation snapshot. -/
def lgW : LastGen := { user := "student", files := [] }

/-- Fixture state with a prior generation, no staged files, one paper. -/
def sW : AppState :=
  { user := "student", lastGeneration := some lgW, files := [], papers := [pW]
    graph := ([], []) }

/-- Fixture state with one staged file and no prior graph. -/
def sGen : AppState :=
  { user := "student", lastGeneration := none, files := [fA], papers := []
    graph := ([], []) }

/-- Fixture state with no staged files and a prior graph. -/
def sUpd : AppState :=
  { user := "researcher", lastGeneration := none, files := [], papers := [pW]
    graph := ([], []) }

/-- Fixture state with both a staged file and a known paper. -/
def sFrameW : AppState :=
  { user := "student", lastGeneration := none, files := [fA], papers := [pW]
    graph := ([], []) }

/-- Fixture positioned node. -/
def nW : PNode := { id := "n1", data := dataW, position := (0, 0) }

/-- Fixture rendered edge. -/
def eW : REdge :=
  { id := "e1", source := "n1", target := "n2", edgeType := none, animated := none
    style := none, markerEnd := none, label := none, data := none }

/-! Poll-loop stepping lemmas shared by the claims about terminal
status handling. -/

/-- A reply with status `failed` terminates the loop with the message
`statusData.error || fallback`. -/
theorem pollLoop_cons_failed (fb : String) (r : ProcessBatchResponse)
    (rest : List PollReply) (hs : r.status = "failed") :
    pollLoop fb (PollReply.ok r :: rest) = LoopOutcome.failed (jsOr r.error fb) := by
  unfold pollLoop
  have hne : ¬ (r.status = "completed" ∧ r.result.isSome = true) := by
    rintro ⟨hc, -⟩
    rw [hs] at hc
    exact absurd hc (by decide)
  rw [if_neg hne, if_pos hs]

/-- A reply with status `completed` but a null result payload falls
through to the wait-and-repoll branch. -/
theorem pollLoop_cons_completed_null (fb : String) (r : ProcessBatchResponse)
    (rest : List PollReply) (hs : r.status = "completed") (hr : r.result = none) :
    pollLoop fb (PollReply.ok r :: rest) = pollLoop fb rest := by
  have h1 : ¬ (r.status = "completed" ∧ r.result.isSome = true) := by
    rintro ⟨-, hsome⟩
    rw [hr] at hsome
    exact absurd hsome (by decide)
  have h2 : ¬ r.status = "failed" := by
    rw [hs]; exact (by decide)
  conv_lhs => rw [pollLoop]
  rw [if_neg h1, if_neg h2]

/-- Claim C1 (amended): in the poll loop shared by the fresh-generation
and update-graph operations, a status reply `failed` terminates the loop
with a failure carrying `statusData.error || fallback`; a status reply
`completed` whose result payload is absent does NOT terminate the loop —
it is treated like a non-terminal status and the loop keeps polling. -/
theorem c1_amended_terminal_handling (fb : String) (r : ProcessBatchResponse)
    (rest : List PollReply) :
    (r.status = "failed" →
      pollLoop fb (PollReply.ok r :: rest) = LoopOutcome.failed (jsOr r.error fb)) ∧
    (r.status = "completed" → r.result = none →
      pollLoop fb (PollReply.ok r :: rest) = pollLoop fb rest) :=
  ⟨fun hs => pollLoop_cons_failed fb r rest hs,
   fun hs hr => pollLoop_cons_completed_null fb r rest hs hr⟩

/-- Claim C1, counterexample: a completed status with a null result does
not stop the loop with a failure — the loop consumes the reply and keeps
polling (here it also consumes the following `running` reply and is still
going when the mocked replies run out). -/
theorem c1_counterexample :
    pollLoop "generic" [PollReply.ok respCompletedNull, PollReply.ok respRunning] =
      LoopOutcome.exhausted := by
  decide

/-- Witness for claim C1's amended theorem at concrete replies. -/
theorem c1_witness :
    pollLoop "generic" [PollReply.ok respFailedBoom] =
      LoopOutcome.failed (jsOr respFailedBoom.error "generic") ∧
    pollLoop "generic" [PollReply.ok respCompletedNull, PollReply.ok respRunning] =
      pollLoop "generic" [PollReply.ok respRunning] :=
  ⟨(c1_amended_terminal_handling "generic" respFailedBoom []).1 rfl,
   (c1_amended_terminal_handling "generic" respCompletedNull
      [PollReply.ok respRunning]).2 rfl rfl⟩

/-- Claim C5 (amended): a `failed` status reply terminates the operation
with the server-supplied error message when it is present and non-empty;
an absent error field — and, because of the JS `||` fallback, a present
but empty one — surfaces the generic fallback message instead. -/
theorem c5_amended_failure_message (fb : String) (r : ProcessBatchResponse)
    (rest : List PollReply) (hs : r.status = "failed") :
    (∀ m, r.error = some m → m ≠ "" →
      pollLoop fb (PollReply.ok r :: rest) = LoopOutcome.failed m) ∧
    (r.error = none →
      pollLoop fb (PollReply.ok r :: rest) = LoopOutcome.failed fb) ∧
    (r.error = some "" →
      pollLoop fb (PollReply.ok r :: rest) = LoopOutcome.failed fb) := by
  refine ⟨?_, ?_, ?_⟩
  · intro m hm hne
    rw [pollLoop_cons_failed fb r rest hs, hm]
    simp only [jsOr]
    rw [if_neg hne]
  · intro hm
    rw [pollLoop_cons_failed fb r rest hs, hm]
    rfl
  · intro hm
    rw [pollLoop_cons_failed fb r rest hs, hm]
    rfl

/-- Claim C5, counterexample: with the error field present but equal to
the empty string, the surfaced message is the generic fallback, not the
server-supplied (empty) value. -/
theorem c5_counterexample :
    respFailedEmptyErr.error = some "" ∧
    pollLoop "Processing failed with unknown error" [PollReply.ok respFailedEmptyErr] =
      LoopOutcome.failed "Processing failed with unknown error" ∧
    "Processing failed with unknown error" ≠ "" := by
  refine ⟨rfl, by decide, by decide⟩

/-- Witness for claim C5's amended theorem at concrete replies. -/
theorem c5_witness :
    pollLoop "generic" [PollReply.ok respFailedBoom] = LoopOutcome.failed "boom" ∧
    pollLoop "generic" [PollReply.ok respFailedNoErr] = LoopOutcome.failed "generic" :=
  ⟨(c5_amended_failure_message "generic" respFailedBoom [] rfl).1 "boom" rfl (by decide),
   (c5_amended_failure_message "generic" respFailedNoErr [] rfl).2.1 rfl⟩

/-- The effective relation kind of a result-payload edge: its
`relation_type`, with the empty string collapsing to `Default`. -/
theorem relationTypeOf_backend (e : BackendEdge) :
    relationTypeOf (backendEdgeToREdge e).data =
      (if e.data.relation_type = "" then "Default" else e.data.relation_type) := rfl

/-- Claim C2: for every edge of a result payload, the styled edge has the
fixed palette stroke color for its relation kind (unknown kinds fall back
to the neutral default color), an animated flag true exactly for the
`Extends` relation kind, and a visible label equal to the relation kind
unless the kind is the default/unknown kind `Default` (or empty, which
the styling collapses to `Default`), in which case the label is empty. -/
theorem c2_edge_styling (e : BackendEdge) :
    (e.data.relation_type = "Supports" → strokeOf (styledOf e) = some "#22c55e") ∧
    (e.data.relation_type = "Contradicts" → strokeOf (styledOf e) = some "#ef4444") ∧
    (e.data.relation_type = "Extends" → strokeOf (styledOf e) = some "#3b82f6") ∧
    (e.data.relation_type ≠ "Supports" → e.data.relation_type ≠ "Contradicts" →
      e.data.relation_type ≠ "Extends" → strokeOf (styledOf e) = some "#94a3b8") ∧
    ((styledOf e).animated = some true ↔ e.data.relation_type = "Extends") ∧
    (e.data.relation_type ≠ "Default" → e.data.relation_type ≠ "" →
      (styledOf e).label = some e.data.relation_type) ∧
    ((e.data.relation_type = "Default" ∨ e.data.relation_type = "") →
      (styledOf e).label = some "") := by
  have hrt := relationTypeOf_backend e
  refine ⟨?_, ?_, ?_, ?_, ?_, ?_, ?_⟩
  · intro h
    simp [styledOf, styleEdge, strokeOf, hrt, h, colorOf, RELATION_COLORS]
  · intro h
    simp [styledOf, styleEdge, strokeOf, hrt, h, colorOf, RELATION_COLORS]
  · intro h
    simp [styledOf, styleEdge, strokeOf, hrt, h, colorOf, RELATION_COLORS]
  · intro h1 h2 h3
    by_cases h0 : e.data.relation_type = ""
    · simp [styledOf, styleEdge, strokeOf, hrt, h0, colorOf, RELATION_COLORS]
    · by_cases hd : e.data.relation_type = "Default"
      · simp [styledOf, styleEdge, strokeOf, hrt, hd, colorOf, RELATION_COLORS]
      · simp [styledOf, styleEdge, strokeOf, hrt, h0, h1, h2, h3, hd, colorOf,
          RELATION_COLORS]
  · constructor
    · intro h
      by_cases h0 : e.data.relation_type = ""
      · simp [styledOf, styleEdge, hrt, h0] at h
      · simp only [styledOf, styleEdge, hrt, if_neg h0] at h
        simpa using h
    · intro h
      have h0 : e.data.relation_type ≠ "" := by rw [h]; decide
      simp [styledOf, styleEdge, hrt, h, if_neg h0]
  · intro h1 h2
    simp [styledOf, styleEdge, hrt, h1, h2]
  · rintro (h | h) <;> simp [styledOf, styleEdge, hrt, h]

/-- Witness for claim C2 at a concrete `Supports` edge. -/
theorem c2_witness :
    eSupB.data.relation_type = "Supports" ∧
    strokeOf (styledOf eSupB) = some "#22c55e" ∧
    (styledOf eSupB).label = some "Supports" :=
  ⟨rfl, (c2_edge_styling eSupB).1 rfl,
   (c2_edge_styling eSupB).2.2.2.2.2.1 (by decide) (by decide)⟩

/-- Re-styling an already styled edge changes nothing: the styling only
depends on `data.relation_type`, which the spread preserves. -/
theorem styleEdge_idem (e : REdge) : styleEdge (styleEdge e) = styleEdge e := by
  cases e with
  | mk id source target edgeType animated style markerEnd label data =>
    cases data with
    | none => rfl
    | some d => rfl

/-- Claim C8: the graph-styling transformation is a pure, deterministic
function of its input (it is a Lean function of the edge list alone, with
no clock or render-state argument), and applying it twice to the same
unchanged edges produces structurally identical styled output. -/
theorem c8_styling_idempotent (es : List REdge) :
    styleEdges (styleEdges es) = styleEdges es := by
  induction es with
  | nil => rfl
  | cons e t ih =>
    simp only [styleEdges, List.map_cons] at ih ⊢
    rw [styleEdge_idem]
    rw [List.map_map] at ih ⊢
    rw [ih]

/-- Indexing into the indexed-map worker: the node at offset `i` of the
output built from counter `k` carries position
`(100 * ((k+i) % 5), 100 * ((k+i) / 5))`. -/
theorem nodesWithPosAux_getElem (l : List BackendNode) :
    ∀ (k i : Nat), (nodesWithPosAux k l)[i]? =
      (l[i]?).map fun n =>
        { id := n.id, data := n.data
          position := (100 * ((k + i) % 5), 100 * ((k + i) / 5)) } := by
  induction l with
  | nil =>
    intro k i
    simp [nodesWithPosAux]
  | cons n rest ih =>
    intro k i
    cases i with
    | zero =>
      simp [nodesWithPosAux]
    | succ j =>
      simp only [nodesWithPosAux, List.getElem?_cons_succ]
      rw [ih (k + 1) j]
      simp only [Nat.add_succ, Nat.succ_add]

/-- Claim C4: the node at ordinal index `i` of a result payload is
assigned position `(100 * (i % 5), 100 * (i / 5))`, and both the
fresh-generation and the update-graph paths lay the rendered graph out
with exactly this function on a completed result. -/
theorem c4_grid_positions (ns : List BackendNode) (i : Nat) (s : AppState)
    (r : GraphResult) (j : String) (h : i < ns.length) :
    ((nodesWithPos ns)[i]?).map PNode.position =
      some (100 * (i % 5), 100 * (i / 5)) ∧
    (s.files ≠ [] →
      (runGenerate s (SubmitReply.ok j) [PollReply.ok (completedResp r)]).1.graph.1 =
        nodesWithPos r.nodes) ∧
    (s.papers ≠ [] →
      (runUpdate s false (SubmitReply.ok j) [PollReply.ok (completedResp r)]).1.graph.1 =
        nodesWithPos r.nodes) := by
  refine ⟨?_, ?_, ?_⟩
  · unfold nodesWithPos
    rw [nodesWithPosAux_getElem ns 0 i, List.getElem?_eq_getElem h]
    simp
  · intro hf
    have h0 : ¬ s.files.length = 0 := by
      simpa [List.length_eq_zero] using hf
    simp only [runGenerate, if_neg h0]
    have hp : pollLoop "Processing failed with unknown error"
        [PollReply.ok (completedResp r)] = LoopOutcome.success r := by
      simp [pollLoop, completedResp]
    rw [hp]
    rfl
  · intro hp'
    have h0 : ¬ (s.papers.length = 0 ∨ false = true) := by
      simp [List.length_eq_zero, hp']
    simp only [runUpdate, if_neg h0]
    have hp : pollLoop "Graph update failed with unknown error"
        [PollReply.ok (completedResp r)] = LoopOutcome.success r := by
      simp [pollLoop, completedResp]
    rw [hp]
    rfl

/-- Witness for claim C4: the seventh node of a seven-node payload sits at
grid cell (1, 1), and concrete runs of both operations place a completed
result with this layout. -/
theorem c4_witness :
    ((nodesWithPos nsW)[6]?).map PNode.position =
      some (100 * (6 % 5), 100 * (6 / 5)) ∧
    (runGenerate sGen (SubmitReply.ok "job")
        [PollReply.ok (completedResp { nodes := nsW, edges := [] })]).1.graph.1 =
      nodesWithPos nsW ∧
    (runUpdate sUpd false (SubmitReply.ok "job")
        [PollReply.ok (completedResp { nodes := nsW, edges := [] })]).1.graph.1 =
      nodesWithPos nsW :=
  ⟨(c4_grid_positions nsW 6 sGen { nodes := nsW, edges := [] } "job" (by decide)).1,
   (c4_grid_positions nsW 6 sGen { nodes := nsW, edges := [] } "job" (by decide)).2.1
      (by decide),
   (c4_grid_positions nsW 6 sUpd { nodes := nsW, edges := [] } "job" (by decide)).2.2
      (by decide)⟩

/-- With unique file names on both sides, the length-then-membership
check of `hasDifferentFilesThanLastGeneration` reports no difference
exactly when the two name sets are equal. -/
theorem hasDiff_false_iff (fs : List FileH) (lg : LastGen)
    (h1 : (fs.map FileH.name).Nodup) (h2 : (lg.files.map FileH.name).Nodup) :
    hasDifferentFilesThanLastGeneration fs (some lg) = false ↔
      (fs.map FileH.name).toFinset = (lg.files.map FileH.name).toFinset := by
  simp only [hasDifferentFilesThanLastGeneration]
  by_cases hlen : fs.length = lg.files.length
  · rw [if_neg (by simpa using hlen)]
    constructor
    · intro hany
      have hmem : ∀ f ∈ fs, f.name ∈ lg.files.map FileH.name := by
        intro f hf
        by_contra hnot
        have : fs.any (fun f => decide (f.name ∉ lg.files.map FileH.name)) = true :=
          List.any_eq_true.mpr ⟨f, hf, by simpa using hnot⟩
        rw [hany] at this
        exact Bool.false_ne_true this
      have hsub : (fs.map FileH.name).toFinset ⊆ (lg.files.map FileH.name).toFinset := by
        intro x hx
        rw [List.mem_toFinset] at hx ⊢
        obtain ⟨f, hf, rfl⟩ := List.mem_map.mp hx
        exact hmem f hf
      refine Finset.eq_of_subset_of_card_le hsub ?_
      rw [List.toFinset_card_of_nodup h1, List.toFinset_card_of_nodup h2,
        List.length_map, List.length_map, hlen]
    · intro hset
      rw [Bool.eq_false_iff]
      intro hany
      obtain ⟨f, hf, hdec⟩ := List.any_eq_true.mp hany
      have hmem : f.name ∈ (fs.map FileH.name).toFinset :=
        List.mem_toFinset.mpr (List.mem_map_of_mem FileH.name hf)
      rw [hset, List.mem_toFinset] at hmem
      simp only [decide_eq_true_eq] at hdec
      exact hdec hmem
  · rw [if_pos (by simpa using hlen)]
    constructor
    · intro h
      exact absurd h (by decide)
    · intro hset
      exfalso
      apply hlen
      have := congrArg Finset.card hset
      rwa [List.toFinset_card_of_nodup h1, List.toFinset_card_of_nodup h2,
        List.length_map, List.length_map] at this

/-- Claim C3: under the staged-list name-uniqueness invariant, the
trigger control is disabled exactly when (no staged files AND (no prior
graph, represented by an empty stored paper list, OR (the mode equals the
last generation's mode AND the staged name set equals the last
generation's name set as sets))) OR a job is in flight. -/
theorem c3_button_disabled (s : AppState) (loading : Bool) (lg : LastGen)
    (hlast : s.lastGeneration = some lg)
    (h1 : (s.files.map FileH.name).Nodup)
    (h2 : (lg.files.map FileH.name).Nodup) :
    buttonDisabled s loading = true ↔
      ((s.files = [] ∧ (s.papers = [] ∨
          (s.user = lg.user ∧
            (s.files.map FileH.name).toFinset = (lg.files.map FileH.name).toFinset)))
        ∨ loading = true) := by
  unfold buttonDisabled
  rw [hlast]
  rw [← hasDiff_false_iff s.files lg h1 h2]
  simp only [userMatchesLast, Bool.or_eq_true, Bool.and_eq_true, decide_eq_true_eq,
    List.length_eq_zero, Bool.not_eq_true']

/-- Witness for claim C3 at a concrete state: prior graph present, staged
list empty, mode unchanged, name sets equal — the control is disabled. -/
theorem c3_witness :
    buttonDisabled sW false = true ↔
      ((sW.files = [] ∧ (sW.papers = [] ∨
          (sW.user = lgW.user ∧
            (sW.files.map FileH.name).toFinset = (lgW.files.map FileH.name).toFinset)))
        ∨ false = true) :=
  c3_button_disabled sW false lgW rfl (by decide) (by decide)

/-- Appending a batch with pairwise-distinct new names to a staged list
with pairwise-distinct names keeps the names pairwise distinct. -/
theorem handleSelectFiles_nodup (staged batch : List FileH)
    (h1 : (staged.map FileH.name).Nodup) (h2 : (batch.map FileH.name).Nodup) :
    ((handleSelectFiles batch staged).map FileH.name).Nodup := by
  unfold handleSelectFiles
  rw [List.map_append, List.nodup_append]
  refine ⟨h1, ?_, ?_⟩
  · exact h2.sublist ((List.filter_sublist batch).map FileH.name)
  · intro x hx hy
    rw [List.mem_map] at hy
    obtain ⟨f, hf, rfl⟩ := hy
    rw [List.mem_filter] at hf
    have hnot := hf.2
    simp only [decide_eq_true_eq] at hnot
    exact hnot hx

/-- Claim C6 (amended): provided every single add event offers files with
pairwise-distinct names, each add preserves the already staged list as a
prefix (insertion order kept, existing entries never replaced) and keeps
the staged names unique; adding `[A,B]` then `[B,C]` yields exactly
`[A,B,C]`, with the second `B` discarded rather than replacing the first. -/
theorem c6_amended_dedup :
    (∀ (staged batch : List FileH),
      (staged.map FileH.name).Nodup → (batch.map FileH.name).Nodup →
      ((handleSelectFiles batch staged).map FileH.name).Nodup ∧
        staged <+: handleSelectFiles batch staged) ∧
    applyFileEvents [[fA, fB], [fB2, fC]] = [fA, fB, fC] := by
  constructor
  · intro staged batch h1 h2
    refine ⟨handleSelectFiles_nodup staged batch h1 h2, ?_⟩
    unfold handleSelectFiles
    exact ⟨_, rfl⟩
  · decide

/-- Claim C6, counterexample: one add event offering two distinct files
that share a name stages both of them — the staged list is not unique by
name after that event. -/
theorem c6_counterexample :
    ¬ ((applyFileEvents [[fD1, fD2]]).map FileH.name).Nodup := by
  decide

/-- Witness for claim C6's amended theorem at the concrete `[A,B]` then
`[B,C]` scenario. -/
theorem c6_witness :
    ((handleSelectFiles [fB2, fC] [fA, fB]).map FileH.name).Nodup ∧
      [fA, fB] <+: handleSelectFiles [fB2, fC] [fA, fB] :=
  c6_amended_dedup.1 [fA, fB] [fB2, fC] (by decide) (by decide)

/-- Claim C7: a trigger with staged files makes the fresh-generation
submission carrying the staged files and the mode (the multipart
`POST /process-batch` payload); a trigger with no staged files, a prior
graph and no job in flight makes the update submission carrying the mode
and the previously known paper identifiers and no files (the JSON
`POST /graph` payload). -/
theorem c7_action_routing (s : AppState) (loading : Bool) :
    (s.files ≠ [] →
      onClickRequest s loading = some (Request.processBatch s.files s.user)) ∧
    (s.files = [] → s.papers ≠ [] → loading = false →
      onClickRequest s loading = some (Request.graphUpdate s.user s.papers)) := by
  constructor
  · intro hf
    have h0 : s.files.length ≠ 0 := by simpa [List.length_eq_zero] using hf
    unfold onClickRequest generateRequest
    rw [if_pos (Nat.pos_of_ne_zero h0), if_neg h0]
  · intro hf hp hl
    subst hl
    have h0 : ¬ s.files.length > 0 := by simp [hf]
    have h1 : ¬ (s.papers.length = 0 ∨ false = true) := by
      simp [List.length_eq_zero, hp]
    unfold onClickRequest updateRequest
    rw [if_neg h0, if_neg h1]

/-- Witness for claim C7 at concrete states for both routes. -/
theorem c7_witness :
    onClickRequest sGen false = some (Request.processBatch sGen.files sGen.user) ∧
    onClickRequest sUpd false = some (Request.graphUpdate sUpd.user sUpd.papers) :=
  ⟨(c7_action_routing sGen false).1 (by decide),
   (c7_action_routing sUpd false).2 rfl (by decide) rfl⟩

/-- Claim C9: the selection state is a single optional entity, so after
any event sequence it is `none`, exactly one node, or exactly one edge;
selecting a node and then an edge leaves exactly that edge selected; and
the structural node/edge classification is unambiguous, so the edge and
node detail views are never shown together. -/
theorem c9_selection_exclusive (evs : List SelEvent) (n : PNode) (e : REdge)
    (st : Option Item) :
    selRun (evs ++ [SelEvent.select (Item.node n), SelEvent.select (Item.edge e)]) =
      some (Item.edge e) ∧
    (selRun evs = none ∨
      (∃ m, selRun evs = some (Item.node m)) ∨
      (∃ d, selRun evs = some (Item.edge d))) ∧
    ¬ (edgeModalShown st = true ∧ nodeModalShown st = true) := by
  refine ⟨?_, ?_, ?_⟩
  · unfold selRun
    rw [List.foldl_append]
    rfl
  · cases h : selRun evs with
    | none => exact Or.inl rfl
    | some it =>
      cases it with
      | node m => exact Or.inr (Or.inl ⟨m, rfl⟩)
      | edge d => exact Or.inr (Or.inr ⟨d, rfl⟩)
  · rintro ⟨he, hn⟩
    cases st with
    | none => exact absurd he (by decide)
    | some it =>
      cases it with
      | node m =>
        simp [edgeModalShown, isEdgeItem, hasSourceField] at he
      | edge d =>
        simp [nodeModalShown, isNodeItem, hasPositionField] at hn

/-- Witness for claim C9 at a concrete node and edge. -/
theorem c9_witness :
    selRun [SelEvent.select (Item.node nW), SelEvent.select (Item.edge eW)] =
      some (Item.edge eW) ∧
    ¬ (edgeModalShown (some (Item.node nW)) = true ∧
        nodeModalShown (some (Item.node nW)) = true) :=
  ⟨(c9_selection_exclusive [] nW eW none).1,
   (c9_selection_exclusive [] nW eW (some (Item.node nW))).2.2⟩

/-- Claim C10: both operations leave the whole frontend state — in
particular the paper-identifier list, the last-generation snapshot, and
the rendered graph — unchanged unless the run reaches the
completed-with-result branch: an early-return guard, a non-success
submission response, a non-success status response (thrown), a `failed`
status, and an inconclusive reply list all map the state to itself. -/
theorem c10_frame (s : AppState) (loading : Bool) (sub : SubmitReply)
    (polls : List PollReply) :
    ((runGenerate s sub polls).2 ≠ RunOutcome.done →
      (runGenerate s sub polls).1 = s) ∧
    ((runUpdate s loading sub polls).2 ≠ RunOutcome.done →
      (runUpdate s loading sub polls).1 = s) := by
  constructor
  · intro hne
    unfold runGenerate at hne ⊢
    by_cases h0 : s.files.length = 0
    · rw [if_pos h0]
    · rw [if_neg h0] at hne ⊢
      cases sub with
      | httpError c => rfl
      | ok j =>
        cases hpl : pollLoop "Processing failed with unknown error" polls with
        | success r =>
          rw [hpl] at hne
          exact absurd rfl hne
        | failed m => rfl
        | thrown m => rfl
        | exhausted => rfl
  · intro hne
    unfold runUpdate at hne ⊢
    by_cases h0 : s.papers.length = 0 ∨ loading = true
    · rw [if_pos h0]
    · rw [if_neg h0] at hne ⊢
      cases sub with
      | httpError c => rfl
      | ok j =>
        cases hpl : pollLoop "Graph update failed with unknown error" polls with
        | success r =>
          rw [hpl] at hne
          exact absurd rfl hne
        | failed m => rfl
        | thrown m => rfl
        | exhausted => rfl

/-- Witness for claim C10: a failed submission of the fresh-generation
path and a failed status of the update path both leave the state intact. -/
theorem c10_witness :
    (runGenerate sFrameW (SubmitReply.httpError 500) []).1 = sFrameW ∧
    (runUpdate sFrameW false (SubmitReply.ok "job")
        [PollReply.ok respFailedBoom]).1 = sFrameW :=
  ⟨(c10_frame sFrameW false (SubmitReply.httpError 500) []).1 (by decide),
   (c10_frame sFrameW false (SubmitReply.ok "job")
      [PollReply.ok respFailedBoom]).2 (by decide)⟩

end ResearchNavigator
